import Mathlib

/-!
Verification of the nixpkgs-review CLI core (src/nixpkgs_review/cli/config.py
and src/nixpkgs_review/cli/pr.py) against its natural-language specification.

The Python code is shallowly embedded: dynamically-typed Python values that can
appear in a parsed TOML configuration dictionary are modelled by `PyVal`;
stateful in-place updates of the `Config` dataclass become explicit state
passing through `Except`, where an error carries both the raised Python
exception and the state of the object at the moment of the raise (Python
mutates `self` field by field, so earlier assignments survive a later raise).
-/

namespace NixpkgsReview

/-- Dynamically-typed Python values occurring in configuration dictionaries:
strings, booleans, integers, lists, string-keyed dictionaries, and compiled
regular-expression pattern objects (`re.Pattern`). -/
inductive PyVal where
  | str (s : String)
  | bool (b : Bool)
  | int (n : Int)
  | list (xs : List PyVal)
  | dict (kvs : List (String × PyVal))
  | pattern (s : String)

/-- Association-list lookup, modelling Python `dict.__getitem__` resolution
order for the small literal dictionaries produced by TOML parsing. -/
def pyLookup : List (String × PyVal) → String → Option PyVal
  | [], _ => none
  | (k, v) :: rest, key => if k = key then some v else pyLookup rest key

/-- Python `config_dict.get(key, default)`. -/
def pyGet (d : List (String × PyVal)) (key : String) (dflt : PyVal) : PyVal :=
  (pyLookup d key).getD dflt

/-- A configuration dictionary: the result of parsing the TOML file. -/
abbrev PyDict := List (String × PyVal)

/-- Python `isinstance(v, str)`. -/
def PyVal.isStr : PyVal → Bool
  | .str _ => true
  | _ => false

/-- Python `isinstance(v, bool)`. -/
def PyVal.isBool : PyVal → Bool
  | .bool _ => true
  | _ => false

/-- Python `isinstance(v, int)`; note that Python booleans are instances of
`int`, so `.bool` values pass this check as well. -/
def PyVal.isIntLike : PyVal → Bool
  | .int _ => true
  | .bool _ => true
  | _ => false

/-- Python `isinstance(v, list)`. -/
def PyVal.isList : PyVal → Bool
  | .list _ => true
  | _ => false

/-- Rendering of `type(v)` as it appears interpolated into an f-string. -/
def PyVal.tyName : PyVal → String
  | .str _ => "<class \x27str\x27>"
  | .bool _ => "<class \x27bool\x27>"
  | .int _ => "<class \x27int\x27>"
  | .list _ => "<class \x27list\x27>"
  | .dict _ => "<class \x27dict\x27>"
  | .pattern _ => "<class \x27re.Pattern\x27>"

/-- A string in single quotes, as produced by the f-string pieces of the
error messages in config.py. -/
def sq (s : String) : String := "\x27" ++ s ++ "\x27"

/-- Python exceptions raised during configuration loading. -/
inductive PyError where
  | valueError (msg : String)
  | assertionError
  | argumentTypeError (msg : String)
  | typeError (msg : String)
  | attributeError (msg : String)

/-- The `ValueError` produced by `_check_type` in config.py; the two f-strings
of the source are concatenated without a separating space. -/
def checkTypeErr (optionName expected : String) (v : PyVal) : PyError :=
  .valueError ("Incorrect value for option " ++ sq optionName ++ "."
    ++ "Expected " ++ sq expected ++ " but got " ++ sq v.tyName ++ ".")

/-- Modelled check for `re.compile` validity (the `re` module is Python
standard library, outside this repository).  The model covers the fragment
exercised here: a pattern is invalid iff its parentheses are unbalanced or it
ends in a dangling backslash; all other characters are ordinary. -/
def reScan : List Char → Nat → Bool
  | [], depth => depth == 0
  | '\\' :: rest, depth =>
    match rest with
    | [] => false
    | _ :: r => reScan r depth
  | '(' :: rest, depth => reScan rest (depth + 1)
  | ')' :: rest, depth =>
    match depth with
    | 0 => false
    | d + 1 => reScan rest d
  | _ :: rest, depth => reScan rest depth

/-- Validity of a regular-expression pattern under the modelled `re.compile`. -/
def reValid (s : String) : Bool := reScan s.data 0

/-- Modelled message of the `re.error` raised by `re.compile` on an invalid
pattern (the exact stdlib wording is not reproduced). -/
def reErrMsg : String := "invalid pattern"

/-- Embedding of `regex_type` (config.py lines 14-18): compile a pattern,
wrapping a compilation failure in `argparse.ArgumentTypeError` whose message
names the offending pattern.  `re.compile` applied to an already-compiled
pattern returns it unchanged; applied to a non-string non-pattern it raises
`TypeError`. -/
def regex_type : PyVal → Except PyError PyVal
  | .str s =>
    if reValid s then .ok (.pattern s)
    else .error (.argumentTypeError (sq s ++ " is not a valid regex: " ++ reErrMsg))
  | .pattern s => .ok (.pattern s)
  | _ => .error (.typeError "first argument must be string or compiled pattern")

/-- The list comprehension `[regex_type(regex) for regex in ...]`: compile
every entry left to right, propagating the first failure. -/
def compileAll : List PyVal → Except PyError (List PyVal)
  | [] => .ok []
  | v :: rest =>
    match regex_type v with
    | .error e => .error e
    | .ok p =>
      match compileAll rest with
      | .error e => .error e
      | .ok ps => .ok (p :: ps)

/-- Modelled from the spec: `nix_nom_tool` lives in utils.py, which is not
under src/; per the spec the build-graph backend choice is between the plain
tool and the graph-optimizing tool, the latter being picked when installed. -/
def nix_nom_tool (nomInstalled : Bool) : String :=
  if nomInstalled then "nom" else "nix"

/-- Fixed vocabulary `EVAL_VALUES` of config.py. -/
def EVAL_VALUES : List String := ["ofborg", "local"]

/-- Fixed vocabulary `CHECKOUT_VALUES` of config.py. -/
def CHECKOUT_VALUES : List String := ["merge", "commit"]

/-- Fixed vocabulary `ALLOW_VALUES` of config.py. -/
def ALLOW_VALUES : List String := ["aliases", "ifd", "url-literals"]

/-- Fixed vocabulary `BUILD_GRAPH_VALUES` of config.py. -/
def BUILD_GRAPH_VALUES : List String := ["nix", "nom"]

/-- Python `v in EVAL_VALUES` for a dynamically-typed `v`. -/
def evalMem : PyVal → Bool
  | .str s => s == "ofborg" || s == "local"
  | _ => false

/-- Python `v in CHECKOUT_VALUES`. -/
def checkoutMem : PyVal → Bool
  | .str s => s == "merge" || s == "commit"
  | _ => false

/-- Python `v in ALLOW_VALUES`. -/
def allowMem : PyVal → Bool
  | .str s => s == "aliases" || s == "ifd" || s == "url-literals"
  | _ => false

/-- Python `v in BUILD_GRAPH_VALUES`. -/
def buildGraphMem : PyVal → Bool
  | .str s => s == "nix" || s == "nom"
  | _ => false

/-- Python `all(p x for x in v)` over a list value. -/
def PyVal.listAll (p : PyVal → Bool) : PyVal → Bool
  | .list xs => xs.all p
  | _ => false

/-- Python `self.num_parallel_evals > 0` for a value that passed the
`isinstance(_, int)` check (booleans compare as 1 and 0). -/
def pyPos : PyVal → Bool
  | .int n => 0 < n
  | .bool b => b
  | _ => false

/-- The `PrConfig` dataclass (eval, checkout, post_result), fields kept
dynamically typed because Python assigns before checking. -/
structure PrConfig where
  eval : PyVal
  checkout : PyVal
  post_result : PyVal

/-- The `RevConfig` dataclass. -/
structure RevConfig where
  branch : PyVal

/-- The `WipConfig` dataclass. -/
structure WipConfig where
  branch : PyVal
  staged : PyVal

/-- The `Config` dataclass of config.py with its sub-configs. -/
structure Config where
  allow : PyVal
  build_args : PyVal
  no_shell : PyVal
  remote : PyVal
  run : PyVal
  sandbox : PyVal
  skipped_packages : PyVal
  skipped_package_regexes : PyVal
  systems : PyVal
  build_graph : PyVal
  print_result : PyVal
  extra_nixpkgs_config : PyVal
  num_parallel_evals : PyVal
  rev_config : RevConfig
  pr_config : PrConfig
  wip_config : WipConfig

/-- The compiled-in field defaults of the `Config` dataclass; `build_graph`
defaults to `nix_nom_tool()`, which depends on whether the graph-optimizing
tool is installed. -/
def Config.default (nomInstalled : Bool) : Config where
  allow := .list []
  build_args := .str ""
  no_shell := .bool false
  remote := .str "https://github.com/NixOS/nixpkgs"
  run := .str ""
  sandbox := .bool false
  skipped_packages := .list []
  skipped_package_regexes := .list []
  systems := .str "current"
  build_graph := .str (nix_nom_tool nomInstalled)
  print_result := .bool false
  extra_nixpkgs_config := .str "\x7b \x7d"
  num_parallel_evals := .int 1
  rev_config := ⟨.str "master"⟩
  pr_config := ⟨.str "ofborg", .str "merge", .bool false⟩
  wip_config := ⟨.str "master", .bool false⟩

/-- An update step error: the raised exception paired with the state of the
`Config` object at the moment of the raise (Python mutates in place). -/
abbrev Err := PyError × Config

/-- Field update for `allow` (config.py lines 112-114): assign, `_check_type`
against `list`, then `assert all(v in ALLOW_VALUES for v in self.allow)`. -/
def updAllow (c : Config) (d : PyDict) : Except Err Config :=
  let v := pyGet d "allow" c.allow
  let c := { c with allow := v }
  if v.isList = false then .error (checkTypeErr "allow" "list" v, c)
  else if v.listAll allowMem then .ok c else .error (.assertionError, c)

/-- Field update for `build_args` (lines 116-117): assign then `_check_type`
against `str`. -/
def updBuildArgs (c : Config) (d : PyDict) : Except Err Config :=
  let v := pyGet d "build_args" c.build_args
  let c := { c with build_args := v }
  if v.isStr then .ok c else .error (checkTypeErr "build_args" "str" v, c)

/-- Field update for `no_shell` (lines 119-120). -/
def updNoShell (c : Config) (d : PyDict) : Except Err Config :=
  let v := pyGet d "no_shell" c.no_shell
  let c := { c with no_shell := v }
  if v.isBool then .ok c else .error (checkTypeErr "no_shell" "bool" v, c)

/-- Field update for `remote` (lines 122-123). -/
def updRemote (c : Config) (d : PyDict) : Except Err Config :=
  let v := pyGet d "remote" c.remote
  let c := { c with remote := v }
  if v.isStr then .ok c else .error (checkTypeErr "remote" "str" v, c)

/-- Field update for `run` (lines 125-126). -/
def updRun (c : Config) (d : PyDict) : Except Err Config :=
  let v := pyGet d "run" c.run
  let c := { c with run := v }
  if v.isStr then .ok c else .error (checkTypeErr "run" "str" v, c)

/-- Field update for `sandbox` (lines 128-129). -/
def updSandbox (c : Config) (d : PyDict) : Except Err Config :=
  let v := pyGet d "sandbox" c.sandbox
  let c := { c with sandbox := v }
  if v.isBool then .ok c else .error (checkTypeErr "sandbox" "bool" v, c)

/-- Field update for `skipped_packages` (lines 131-134). -/
def updSkippedPackages (c : Config) (d : PyDict) : Except Err Config :=
  let v := pyGet d "skipped_packages" c.skipped_packages
  let c := { c with skipped_packages := v }
  if v.isList then .ok c else .error (checkTypeErr "skipped_packages" "list" v, c)

/-- Field update for `skipped_package_regexes` (lines 136-142): the fetched
value is a local variable, `_check_type` runs on it, then every entry is
compiled eagerly by `regex_type`; only after all compile is the field
assigned, so an error here leaves the field unmutated. -/
def updRegexes (c : Config) (d : PyDict) : Except Err Config :=
  match pyGet d "skipped_package_regexes" c.skipped_package_regexes with
  | .list xs =>
    match compileAll xs with
    | .ok ps => .ok { c with skipped_package_regexes := .list ps }
    | .error e => .error (e, c)
  | v => .error (checkTypeErr "skipped_package_regexes" "list" v, c)

/-- Field update for `systems` (lines 144-147): assign, assert str-or-list,
and when a list assert every element is a str. -/
def updSystems (c : Config) (d : PyDict) : Except Err Config :=
  let v := pyGet d "systems" c.systems
  let c := { c with systems := v }
  if (v.isStr || v.isList) = false then .error (.assertionError, c)
  else if v.isList && !(v.listAll PyVal.isStr) then .error (.assertionError, c)
  else .ok c

/-- Field update for `build_graph` (lines 149-151): assign, `_check_type`
against `str`, then assert membership in `BUILD_GRAPH_VALUES`. -/
def updBuildGraph (c : Config) (d : PyDict) : Except Err Config :=
  let v := pyGet d "build_graph" c.build_graph
  let c := { c with build_graph := v }
  if v.isStr = false then .error (checkTypeErr "build_graph" "str" v, c)
  else if buildGraphMem v then .ok c else .error (.assertionError, c)

/-- Field update for `print_result` (lines 153-154). -/
def updPrintResult (c : Config) (d : PyDict) : Except Err Config :=
  let v := pyGet d "print_result" c.print_result
  let c := { c with print_result := v }
  if v.isBool then .ok c else .error (checkTypeErr "print_result" "bool" v, c)

/-- Field update for `extra_nixpkgs_config` (lines 156-159). -/
def updExtraNixpkgsConfig (c : Config) (d : PyDict) : Except Err Config :=
  let v := pyGet d "extra_nixpkgs_config" c.extra_nixpkgs_config
  let c := { c with extra_nixpkgs_config := v }
  if v.isStr then .ok c else .error (checkTypeErr "extra_nixpkgs_config" "str" v, c)

/-- Field update for `num_parallel_evals` (lines 161-165): assign,
`_check_type` against `int`, then `assert self.num_parallel_evals > 0`. -/
def updNumParallel (c : Config) (d : PyDict) : Except Err Config :=
  let v := pyGet d "num_parallel_evals" c.num_parallel_evals
  let c := { c with num_parallel_evals := v }
  if v.isIntLike = false then .error (checkTypeErr "num_parallel_evals" "int" v, c)
  else if pyPos v then .ok c else .error (.assertionError, c)

/-- `RevConfig.update_from_dict` (config.py lines 68-70). -/
def revUpdateFromDict (c : Config) (kvs : PyDict) : Except Err Config :=
  let v := pyGet kvs "branch" c.rev_config.branch
  let c := { c with rev_config := ⟨v⟩ }
  if v.isStr then .ok c else .error (checkTypeErr "rev.branch" "str" v, c)

/-- `WipConfig.update_from_dict` (config.py lines 78-83).  The source reads
`self.staged = config_dict.get("staged", self.branch)`: the fallback is the
(string-valued) `branch` field rather than the current `staged` value, so an
absent `staged` key assigns a string and the subsequent bool `_check_type`
raises. -/
def wipUpdateFromDict (c : Config) (kvs : PyDict) : Except Err Config :=
  let b := pyGet kvs "branch" c.wip_config.branch
  let c1 := { c with wip_config := { c.wip_config with branch := b } }
  if b.isStr = false then .error (checkTypeErr "wip.branch" "str" b, c1)
  else
    let s := pyGet kvs "staged" b
    let c2 := { c1 with wip_config := { c1.wip_config with staged := s } }
    if s.isBool then .ok c2 else .error (checkTypeErr "wip.staged" "bool" s, c2)

/-- `PrConfig.update_from_dict` (config.py lines 53-61): assign `eval` then
assert vocabulary membership, same for `checkout`, then `post_result` with a
bool `_check_type`. -/
def prUpdateFromDict (c : Config) (kvs : PyDict) : Except Err Config :=
  let e := pyGet kvs "eval" c.pr_config.eval
  let c1 := { c with pr_config := { c.pr_config with eval := e } }
  if evalMem e = false then .error (.assertionError, c1)
  else
    let ch := pyGet kvs "checkout" c1.pr_config.checkout
    let c2 := { c1 with pr_config := { c1.pr_config with checkout := ch } }
    if checkoutMem ch = false then .error (.assertionError, c2)
    else
      let p := pyGet kvs "post_result" c2.pr_config.post_result
      let c3 := { c2 with pr_config := { c2.pr_config with post_result := p } }
      if p.isBool then .ok c3 else .error (checkTypeErr "pr.post_result" "bool" p, c3)

/-- Step for the `rev` sub-namespace (lines 169-171): `config_dict.get("rev",
dict())` then the recursive update; a present non-dict value raises
`AttributeError` at the first `.get` inside. -/
def updRev (c : Config) (d : PyDict) : Except Err Config :=
  match pyGet d "rev" (.dict []) with
  | .dict kvs => revUpdateFromDict c kvs
  | v => .error (.attributeError (sq v.tyName ++ " object has no attribute get"), c)

/-- Step for the `wip` sub-namespace (lines 173-175). -/
def updWip (c : Config) (d : PyDict) : Except Err Config :=
  match pyGet d "wip" (.dict []) with
  | .dict kvs => wipUpdateFromDict c kvs
  | v => .error (.attributeError (sq v.tyName ++ " object has no attribute get"), c)

/-- Step for the `pr` sub-namespace (lines 177-179). -/
def updPr (c : Config) (d : PyDict) : Except Err Config :=
  match pyGet d "pr" (.dict []) with
  | .dict kvs => prUpdateFromDict c kvs
  | v => .error (.attributeError (sq v.tyName ++ " object has no attribute get"), c)

/-- Sequential execution of update steps against the same dictionary,
propagating the first raised exception: Python statements executed in order
on the mutable `self`. -/
def runSteps : List (Config → PyDict → Except Err Config) → Config → PyDict → Except Err Config
  | [], c, _ => .ok c
  | f :: fs, c, d =>
    match f c d with
    | .error e => .error e
    | .ok c1 => runSteps fs c1 d

/-- The statements of `Config.update_from_dict` (config.py lines 111-179) in
source order. -/
def updateSteps : List (Config → PyDict → Except Err Config) :=
  [updAllow, updBuildArgs, updNoShell, updRemote, updRun, updSandbox,
   updSkippedPackages, updRegexes, updSystems, updBuildGraph, updPrintResult,
   updExtraNixpkgsConfig, updNumParallel, updRev, updWip, updPr]

/-- `Config.update_from_dict`. -/
def Config.update_from_dict (c : Config) (d : PyDict) : Except Err Config :=
  runSteps updateSteps c d

/-- The CLI argument namespace fields that the modelled control flow reads
(argparse fills every attribute, so all fields are present). -/
structure Args where
  number : List String
  no_shell : Bool
  sandbox : Bool
  run : String

/-- `Config.update_from_args` (config.py lines 181-182) as written: the body
is `self.update_from_dict(config_dict={})` — the CLI namespace is never
consulted.  (In CPython the definition additionally lacks a `self` parameter,
so the bound call `config.update_from_args(args)` raises `TypeError`; the
body itself, as modelled, applies an empty override dictionary.) -/
def Config.update_from_args (c : Config) (_args : Args) : Except Err Config :=
  c.update_from_dict []

/-- Greedy scan of a maximal digit run, embedding the regex atom
`\d+` of `parse_pr_numbers` (ASCII digits; Python also admits other Unicode
decimal digits, not modelled here). -/
def spanDigits : List Char → List Char × List Char
  | [] => ([], [])
  | c :: rest =>
    if c.isDigit then
      let (ds, r) := spanDigits rest
      (c :: ds, r)
    else ([], c :: rest)

/-- Numeric value of a run of decimal digit characters, as `int` applied to
the captured group. -/
def digitsVal (l : List Char) : Nat :=
  l.foldl (fun a c => 10 * a + (c.toNat - 48)) 0

/-- Embedding of `re.match(r"(\d+)-(\d+)", arg)` (pr.py line 21): a prefix
match of digits, a dash, digits, the rest of the argument ignored; returns
the two captured numbers. -/
def matchRangeArg (s : List Char) : Option (Nat × Nat) :=
  match spanDigits s with
  | ([], _) => none
  | (d1, r1) =>
    match r1 with
    | '-' :: r2 =>
      match spanDigits r2 with
      | ([], _) => none
      | (d2, _) => some (digitsVal d1, digitsVal d2)
    | _ => none

/-- Literal-by-literal match of a fixed leading string, used for the URL
form; returns the remainder of the argument. -/
def matchLit : List Char → List Char → Option (List Char)
  | [], s => some s
  | _ :: _, [] => none
  | p :: ps, c :: cs => if c = p then matchLit ps cs else none

/-- Embedding of `re.match(r"https://github.com/NixOS/nixpkgs/pull/(\d+)/?.*",
arg)` (pr.py line 25): the literal URL root, then at least one digit; the
trailing `/?.*` matches any remainder, so the rest of the argument is
ignored. -/
def matchPullUrl (s : List Char) : Option Nat :=
  match matchLit "https://github.com/NixOS/nixpkgs/pull/".data s with
  | none => none
  | some rest =>
    match spanDigits rest with
    | ([], _) => none
    | (ds, _) => some (digitsVal ds)

/-- Model of the Python builtin `int(str)` restricted to ASCII: optional
surrounding whitespace, an optional single sign, then a nonempty run of
decimal digits (underscore digit grouping and Unicode digits are not
modelled). -/
def pyIntOfString (s : List Char) : Option Int :=
  let l := s.dropWhile Char.isWhitespace
  let l := (l.reverse.dropWhile Char.isWhitespace).reverse
  match l with
  | '+' :: rest =>
    if rest ≠ [] ∧ rest.all Char.isDigit then some (Int.ofNat (digitsVal rest)) else none
  | '-' :: rest =>
    if rest ≠ [] ∧ rest.all Char.isDigit then some (-(Int.ofNat (digitsVal rest))) else none
  | rest =>
    if rest ≠ [] ∧ rest.all Char.isDigit then some (Int.ofNat (digitsVal rest)) else none

/-- Python `range(a, b)` as a list of integers. -/
def pyRange (a b : Nat) : List Int :=
  (List.range' a (b - a)).map Int.ofNat

/-- Embedding of `parse_pr_numbers` (pr.py lines 18-34).  Forms are tried in
source order: numeric range, pull-request URL, bare integer.  On an argument
matching none of them the function warns and exits; the error carries the
exit code and the warning text.  At the warning site the local `m` holds the
result of the URL match, which is `None` on that path, so the f-string
`f"expected number or URL, got {m}"` renders the match object, not the
offending argument. -/
def parse_pr_numbers (numberArgs : List String) : Except (Nat × String) (List Int) :=
  match numberArgs with
  | [] => .ok []
  | arg :: rest =>
    let parsed : Except (Nat × String) (List Int) :=
      match matchRangeArg arg.data with
      | some (a, b) => .ok (pyRange a b)
      | none =>
        match matchPullUrl arg.data with
        | some n => .ok [Int.ofNat n]
        | none =>
          match pyIntOfString arg.data with
          | some n => .ok [n]
          | none => .error (1, "expected number or URL, got None")
    match parsed with
    | .error e => .error e
    | .ok prs =>
      match parse_pr_numbers rest with
      | .error e => .error e
      | .ok more => .ok (prs ++ more)

/-- Outcome of one identifier's per-identifier pipeline.  Modelled from the
spec: `Review` (review.py, not under src/) is constructed by plain field
assignment and cannot raise; the domain error `NixpkgsReviewError` arises
from `review.build_pr` (checkout or evaluation, spec 4.4 steps 2-3), and
`review.start_review` reports the per-identifier review success. -/
inductive PipelineResult where
  | fail (msg : String)
  | ok (attrs : List (String × List String)) (success : Bool)

/-- Whether a pipeline outcome records a context. -/
def PipelineResult.isOk : PipelineResult → Bool
  | .ok _ _ => true
  | .fail _ => false

/-- The review success reported for a recorded identifier. -/
def PipelineResult.success : PipelineResult → Bool
  | .ok _ b => b
  | .fail _ => false

/-- Modelled from the spec: the filesystem path of `Builddir(f"pr-{pr}")`
(builddir.py, not under src/) is abstracted by the session name. -/
def builddirPath (pr : Int) : String := "pr-" ++ toString pr

/-- Lifecycle events of the enclosing `with Buildenv(...), ExitStack()` scope:
Build Environment acquisition/release and per-identifier Build Session
acquisition/release. -/
inductive Event where
  | acquireEnv
  | acquireSession (pr : Int)
  | releaseSession (pr : Int)
  | releaseEnv

/-- State threaded through the `for pr in prs` loop of `pr_command`
(pr.py lines 72-98): emitted events, the `ExitStack`'s pending-release stack
(most recently acquired first), the recorded contexts, whether the local
`review` variable has been bound, the emitted warnings, and the current
`builddir` variable. -/
structure LoopState where
  events : List Event
  stack : List Int
  contexts : List (Int × String × List (String × List String))
  reviewBound : Bool
  warnings : List String
  builddir : Option String

/-- One iteration of the loop: acquire the session (pushed on the exit
stack), construct the `Review` (binding `review`), then either record the
context returned by `build_pr` or catch `NixpkgsReviewError` and warn. -/
def loopStep (outcome : Int → PipelineResult) (st : LoopState) (pr : Int) : LoopState :=
  let st := { st with
    events := st.events ++ [Event.acquireSession pr]
    stack := pr :: st.stack
    builddir := some (builddirPath pr)
    reviewBound := true }
  match outcome pr with
  | .ok attrs _ => { st with contexts := st.contexts ++ [(pr, builddirPath pr, attrs)] }
  | .fail msg => { st with warnings := st.warnings ++
      ["https://github.com/NixOS/nixpkgs/pull/" ++ toString pr ++ " failed to build: " ++ msg] }

/-- Parameters of one orchestrated run: the expanded identifier list, the
`--no-shell` flag, and the per-identifier pipeline outcomes. -/
structure RunParams where
  prs : List Int
  noShell : Bool
  outcome : Int → PipelineResult

/-- The loop state after processing every identifier. -/
def runState (p : RunParams) : LoopState :=
  p.prs.foldl (loopStep p.outcome) ⟨[Event.acquireEnv], [], [], false, [], none⟩

/-- The aggregate `all_succeeded` of pr.py lines 101-104: `all(...)` over the
recorded contexts only. -/
def allSucceeded (p : RunParams) : Bool :=
  (runState p).contexts.all (fun c => (p.outcome c.1).success)

/-- How one run of `pr_command` terminates. -/
inductive RunResult where
  | exited (code : Nat)
  | assertionError
  | shell (builddirPath : String)
deriving DecidableEq

/-- Embedding of `pr_command` from the identifier loop onward (pr.py lines
67-112): run the loop, then `assert review is not None`, compute
`all_succeeded`, exit by `sys.exit(0 or 1)` when `--no-shell` is set, exit 1
when some identifier recorded no context, otherwise fall through to the
interactive shell with the last build directory.  The `with` blocks release
every acquired session in reverse-acquisition order and the Build
Environment last, on every exit path (`sys.exit` raises `SystemExit` and an
assert raises `AssertionError`; both unwind through the context managers).
The `config.read_config()` / `config.update_from_args(args)` calls of lines
38-42 are settled separately against `Config.update_from_dict` and
`Config.update_from_args`. -/
def prCommandCore (p : RunParams) : RunResult × List Event :=
  let st := runState p
  let events := st.events ++ st.stack.map Event.releaseSession ++ [Event.releaseEnv]
  let result :=
    if st.reviewBound = false then RunResult.assertionError
    else if p.noShell then RunResult.exited (if allSucceeded p then 0 else 1)
    else if st.contexts.length ≠ p.prs.length then RunResult.exited 1
    else
      match st.builddir with
      | none => RunResult.assertionError
      | some path => RunResult.shell path
  (result, events)

/-- `pr_command` including the identifier-parsing step (pr.py line 41): an
unparseable argument exits with the parser's code before any session or the
Build Environment is acquired. -/
def pr_command (args : Args) (outcome : Int → PipelineResult) : RunResult × List Event :=
  match parse_pr_numbers args.number with
  | .error (code, _) => (RunResult.exited code, [])
  | .ok prs => prCommandCore ⟨prs, args.no_shell, outcome⟩

/-- The context recorded for one identifier, when its pipeline succeeds. -/
def contextOf (outcome : Int → PipelineResult) (pr : Int) :
    Option (Int × String × List (String × List String)) :=
  match outcome pr with
  | .ok attrs _ => some (pr, builddirPath pr, attrs)
  | .fail _ => none

/-- Whether the first character run is a leading run of the second. -/
def startsRun : List Char → List Char → Bool
  | [], _ => true
  | _ :: _, [] => false
  | n :: ns, h :: hs => n = h && startsRun ns hs

/-- Whether the first character run occurs contiguously inside the second:
used to state what an error message does and does not mention. -/
def containsRun (needle : List Char) : List Char → Bool
  | [] => startsRun needle []
  | c :: rest => startsRun needle (c :: rest) || containsRun needle rest

/-- The decimal digit character of a value below ten. -/
def digitChar : Nat → Char
  | 0 => '0'
  | 1 => '1'
  | 2 => '2'
  | 3 => '3'
  | 4 => '4'
  | 5 => '5'
  | 6 => '6'
  | 7 => '7'
  | 8 => '8'
  | 9 => '9'
  | _ => '*'

/-- The canonical decimal rendering of a natural number as a character run,
used to range over all argument strings of the form `A-B`. -/
def natDigits (n : Nat) : List Char :=
  if _h : n < 10 then [digitChar n]
  else natDigits (n / 10) ++ [digitChar (n % 10)]
termination_by n
decreasing_by exact Nat.div_lt_self (by omega) (by omega)

lemma digitChar_isDigit (k : Nat) (hk : k < 10) : (digitChar k).isDigit = true := by
  interval_cases k <;> decide

lemma digitChar_val (k : Nat) (hk : k < 10) : (digitChar k).toNat - 48 = k := by
  interval_cases k <;> decide

lemma natDigits_ne_nil (n : Nat) : natDigits n ≠ [] := by
  rw [natDigits]
  split
  · simp
  · simp

lemma natDigits_all_digit (n : Nat) : ∀ c ∈ natDigits n, c.isDigit = true := by
  induction n using Nat.strong_induction_on with
  | _ n ih =>
    rw [natDigits]
    split
    · next h =>
      intro c hc
      rw [List.mem_singleton] at hc
      subst hc
      exact digitChar_isDigit n h
    · next h =>
      intro c hc
      rw [List.mem_append] at hc
      rcases hc with hc | hc
      · exact ih (n / 10) (Nat.div_lt_self (by omega) (by omega)) c hc
      · rw [List.mem_singleton] at hc
        subst hc
        exact digitChar_isDigit _ (Nat.mod_lt _ (by omega))

lemma digitsVal_append (l : List Char) (c : Char) :
    digitsVal (l ++ [c]) = 10 * digitsVal l + (c.toNat - 48) := by
  simp [digitsVal, List.foldl_append]

lemma digitsVal_natDigits (n : Nat) : digitsVal (natDigits n) = n := by
  induction n using Nat.strong_induction_on with
  | _ n ih =>
    rw [natDigits]
    split
    · next h =>
      have h1 : digitsVal [digitChar n] = (digitChar n).toNat - 48 := by
        simp [digitsVal]
      rw [h1, digitChar_val n h]
    · next h =>
      rw [digitsVal_append, ih (n / 10) (Nat.div_lt_self (by omega) (by omega)),
        digitChar_val _ (Nat.mod_lt _ (by omega))]
      omega

lemma spanDigits_all (l : List Char) (h : ∀ c ∈ l, c.isDigit = true) :
    spanDigits l = (l, []) := by
  induction l with
  | nil => rfl
  | cons c r ih =>
    have hc : c.isDigit = true := h c (by simp)
    simp [spanDigits, hc, ih (fun x hx => h x (by simp [hx]))]

lemma spanDigits_stop (l : List Char) (b : Char) (r : List Char)
    (h : ∀ c ∈ l, c.isDigit = true) (hb : b.isDigit = false) :
    spanDigits (l ++ b :: r) = (l, b :: r) := by
  induction l with
  | nil => simp [spanDigits, hb]
  | cons c t ih =>
    have hc : c.isDigit = true := h c (by simp)
    simp [spanDigits, hc, ih (fun x hx => h x (by simp [hx]))]

lemma matchRangeArg_digits (A B : Nat) :
    matchRangeArg (natDigits A ++ '-' :: natDigits B) = some (A, B) := by
  obtain ⟨c, cs, hA⟩ := List.exists_cons_of_ne_nil (natDigits_ne_nil A)
  obtain ⟨d, ds, hB⟩ := List.exists_cons_of_ne_nil (natDigits_ne_nil B)
  have hvA : digitsVal (c :: cs) = A := by rw [← hA]; exact digitsVal_natDigits A
  have hvB : digitsVal (d :: ds) = B := by rw [← hB]; exact digitsVal_natDigits B
  have h1 : spanDigits (natDigits A ++ '-' :: natDigits B)
      = (natDigits A, '-' :: natDigits B) :=
    spanDigits_stop _ _ _ (natDigits_all_digit A) (by decide)
  have h2 : spanDigits (natDigits B) = (natDigits B, []) :=
    spanDigits_all _ (natDigits_all_digit B)
  rw [hA, hB] at h1
  rw [hB] at h2
  rw [hA, hB]
  unfold matchRangeArg
  rw [h1]
  simp [h2, hvA, hvB]

lemma parse_single_range (A B : Nat) :
    parse_pr_numbers [String.mk (natDigits A ++ '-' :: natDigits B)]
      = .ok (pyRange A B) := by
  have hs : (String.mk (natDigits A ++ '-' :: natDigits B)).data
      = natDigits A ++ '-' :: natDigits B := rfl
  simp [parse_pr_numbers, hs, matchRangeArg_digits A B]

lemma runSteps_ok_sub {fs : List (Config → PyDict → Except Err Config)}
    {f : Config → PyDict → Except Err Config} {c c' : Config} {d : PyDict}
    (hmem : f ∈ fs) (h : runSteps fs c d = .ok c') :
    ∃ a b, f a d = .ok b := by
  induction fs generalizing c with
  | nil => cases hmem
  | cons g gs ih =>
    simp only [runSteps] at h
    cases hg : g c d with
    | error e => rw [hg] at h; cases h
    | ok c1 =>
      rw [hg] at h
      rcases List.mem_cons.mp hmem with rfl | hmem'
      · exact ⟨c, c1, hg⟩
      · exact ih hmem' h

lemma compileAll_ok_mem {xs ps : List PyVal} (h : compileAll xs = .ok ps) :
    ∀ x ∈ xs, ∃ p, regex_type x = .ok p := by
  induction xs generalizing ps with
  | nil => intro x hx; cases hx
  | cons y ys ih =>
    intro x hx
    simp only [compileAll] at h
    cases hy : regex_type y with
    | error e => rw [hy] at h; cases h
    | ok p =>
      rw [hy] at h
      cases hys : compileAll ys with
      | error e => rw [hys] at h; cases h
      | ok qs =>
        rcases List.mem_cons.mp hx with rfl | hx'
        · exact ⟨p, hy⟩
        · exact ih hys x hx'

lemma updBuildArgs_ok {a b : Config} {d : PyDict} (h : updBuildArgs a d = .ok b) :
    ∀ v, pyLookup d "build_args" = some v → v.isStr = true := by
  intro v hv
  simp only [updBuildArgs, pyGet, hv, Option.getD_some] at h
  split at h
  · assumption
  · cases h

lemma updNoShell_ok {a b : Config} {d : PyDict} (h : updNoShell a d = .ok b) :
    ∀ v, pyLookup d "no_shell" = some v → v.isBool = true := by
  intro v hv
  simp only [updNoShell, pyGet, hv, Option.getD_some] at h
  split at h
  · assumption
  · cases h

lemma updAllow_ok {a b : Config} {d : PyDict} (h : updAllow a d = .ok b) :
    ∀ v, pyLookup d "allow" = some v → v.isList = true ∧ v.listAll allowMem = true := by
  intro v hv
  simp only [updAllow, pyGet, hv, Option.getD_some] at h
  split at h
  · cases h
  · next hlist =>
    split at h
    · next hall => exact ⟨by simpa using hlist, hall⟩
    · cases h

lemma updNumParallel_ok {a b : Config} {d : PyDict} (h : updNumParallel a d = .ok b) :
    ∀ v, pyLookup d "num_parallel_evals" = some v →
      v.isIntLike = true ∧ pyPos v = true := by
  intro v hv
  simp only [updNumParallel, pyGet, hv, Option.getD_some] at h
  split at h
  · cases h
  · next hint =>
    split at h
    · next hpos => exact ⟨by simpa using hint, hpos⟩
    · cases h

lemma updRegexes_ok {a b : Config} {d : PyDict} (h : updRegexes a d = .ok b) :
    ∀ v, pyLookup d "skipped_package_regexes" = some v →
      ∃ xs, v = .list xs ∧ ∀ x ∈ xs, ∃ p, regex_type x = .ok p := by
  intro v hv
  simp only [updRegexes, pyGet, hv, Option.getD_some] at h
  cases v with
  | list xs =>
    refine ⟨xs, rfl, ?_⟩
    cases hc : compileAll xs with
    | error e => simp [hc] at h
    | ok ps => exact compileAll_ok_mem hc
  | str s => cases h
  | bool bv => cases h
  | int n => cases h
  | dict kvs => cases h
  | pattern s => cases h

lemma updPr_ok {a b : Config} {d : PyDict} (h : updPr a d = .ok b) :
    ∀ kvs v, pyLookup d "pr" = some (.dict kvs) →
      pyLookup kvs "eval" = some v → evalMem v = true := by
  intro kvs v hd hv
  simp only [updPr, pyGet, hd, Option.getD_some] at h
  simp only [prUpdateFromDict, pyGet, hv, Option.getD_some] at h
  split at h
  · cases h
  · next he => simpa using he

lemma updRemote_ok {a b : Config} {d : PyDict} (h : updRemote a d = .ok b) :
    ∀ v, pyLookup d "remote" = some v → v.isStr = true := by
  intro v hv
  simp only [updRemote, pyGet, hv, Option.getD_some] at h
  split at h
  · assumption
  · cases h

lemma updRun_ok {a b : Config} {d : PyDict} (h : updRun a d = .ok b) :
    ∀ v, pyLookup d "run" = some v → v.isStr = true := by
  intro v hv
  simp only [updRun, pyGet, hv, Option.getD_some] at h
  split at h
  · assumption
  · cases h

lemma updSandbox_ok {a b : Config} {d : PyDict} (h : updSandbox a d = .ok b) :
    ∀ v, pyLookup d "sandbox" = some v → v.isBool = true := by
  intro v hv
  simp only [updSandbox, pyGet, hv, Option.getD_some] at h
  split at h
  · assumption
  · cases h

lemma updSkippedPackages_ok {a b : Config} {d : PyDict}
    (h : updSkippedPackages a d = .ok b) :
    ∀ v, pyLookup d "skipped_packages" = some v → v.isList = true := by
  intro v hv
  simp only [updSkippedPackages, pyGet, hv, Option.getD_some] at h
  split at h
  · assumption
  · cases h

lemma updPrintResult_ok {a b : Config} {d : PyDict} (h : updPrintResult a d = .ok b) :
    ∀ v, pyLookup d "print_result" = some v → v.isBool = true := by
  intro v hv
  simp only [updPrintResult, pyGet, hv, Option.getD_some] at h
  split at h
  · assumption
  · cases h

lemma updExtraNixpkgsConfig_ok {a b : Config} {d : PyDict}
    (h : updExtraNixpkgsConfig a d = .ok b) :
    ∀ v, pyLookup d "extra_nixpkgs_config" = some v → v.isStr = true := by
  intro v hv
  simp only [updExtraNixpkgsConfig, pyGet, hv, Option.getD_some] at h
  split at h
  · assumption
  · cases h

lemma updSystems_ok {a b : Config} {d : PyDict} (h : updSystems a d = .ok b) :
    ∀ v, pyLookup d "systems" = some v →
      (v.isStr || v.isList) = true
      ∧ (v.isList && !(v.listAll PyVal.isStr)) = false := by
  intro v hv
  simp only [updSystems, pyGet, hv, Option.getD_some] at h
  split at h
  · cases h
  · next h1 =>
    split at h
    · cases h
    · next h2 =>
      refine ⟨?_, by simpa using h2⟩
      cases hb : (v.isStr || v.isList) with
      | true => rfl
      | false => exact absurd hb h1

lemma updBuildGraph_ok {a b : Config} {d : PyDict} (h : updBuildGraph a d = .ok b) :
    ∀ v, pyLookup d "build_graph" = some v →
      v.isStr = true ∧ buildGraphMem v = true := by
  intro v hv
  simp only [updBuildGraph, pyGet, hv, Option.getD_some] at h
  split at h
  · cases h
  · next h1 =>
    split at h
    · next h2 => exact ⟨by simpa using h1, h2⟩
    · cases h

lemma updRev_ok {a b : Config} {d : PyDict} (h : updRev a d = .ok b) :
    ∀ kvs v, pyLookup d "rev" = some (.dict kvs) →
      pyLookup kvs "branch" = some v → v.isStr = true := by
  intro kvs v hd hv
  simp only [updRev, pyGet, hd, Option.getD_some] at h
  simp only [revUpdateFromDict, pyGet, hv, Option.getD_some] at h
  split at h
  · assumption
  · cases h

lemma updWip_ok {a b : Config} {d : PyDict} (h : updWip a d = .ok b) :
    ∀ kvs, pyLookup d "wip" = some (.dict kvs) →
      (∀ v, pyLookup kvs "branch" = some v → v.isStr = true)
      ∧ (∀ v, pyLookup kvs "staged" = some v → v.isBool = true) := by
  intro kvs hd
  simp only [updWip, pyGet, hd, Option.getD_some] at h
  constructor
  · intro v hv
    simp only [wipUpdateFromDict, pyGet, hv, Option.getD_some] at h
    split at h
    · cases h
    · next h1 => simpa using h1
  · intro v hv
    simp only [wipUpdateFromDict, pyGet, hv, Option.getD_some] at h
    split at h
    · cases h
    · split at h
      · next h2 => exact h2
      · cases h

lemma updPr_ok_checkout {a b : Config} {d : PyDict} (h : updPr a d = .ok b) :
    ∀ kvs v, pyLookup d "pr" = some (.dict kvs) →
      pyLookup kvs "checkout" = some v → checkoutMem v = true := by
  intro kvs v hd hv
  simp only [updPr, pyGet, hd, Option.getD_some] at h
  simp only [prUpdateFromDict, pyGet, hv, Option.getD_some] at h
  split at h
  · cases h
  · split at h
    · cases h
    · next h2 => simpa using h2

lemma updPr_ok_postResult {a b : Config} {d : PyDict} (h : updPr a d = .ok b) :
    ∀ kvs v, pyLookup d "pr" = some (.dict kvs) →
      pyLookup kvs "post_result" = some v → v.isBool = true := by
  intro kvs v hd hv
  simp only [updPr, pyGet, hd, Option.getD_some] at h
  simp only [prUpdateFromDict, pyGet, hv, Option.getD_some] at h
  split at h
  · cases h
  · split at h
    · cases h
    · split at h
      · next h3 => exact h3
      · cases h

lemma updWip_nil_not_ok (a b : Config) : updWip a [] ≠ .ok b := by
  intro h
  simp only [updWip, pyGet, pyLookup, Option.getD_none] at h
  simp only [wipUpdateFromDict, pyGet, pyLookup, Option.getD_none] at h
  cases hb : a.wip_config.branch <;> rw [hb] at h <;>
    simp [PyVal.isStr, PyVal.isBool] at h

lemma update_from_dict_nil_err (c : Config) :
    ∃ e, c.update_from_dict [] = .error e := by
  cases h : c.update_from_dict [] with
  | error e => exact ⟨e, rfl⟩
  | ok c' =>
    exfalso
    have hmem : updWip ∈ updateSteps := by simp [updateSteps]
    obtain ⟨a, b, hab⟩ := runSteps_ok_sub hmem h
    exact updWip_nil_not_ok a b hab

lemma loopStep_events (o : Int → PipelineResult) (st : LoopState) (pr : Int) :
    (loopStep o st pr).events = st.events ++ [Event.acquireSession pr] := by
  cases h : o pr <;> simp [loopStep, h]

lemma loopStep_stack (o : Int → PipelineResult) (st : LoopState) (pr : Int) :
    (loopStep o st pr).stack = pr :: st.stack := by
  cases h : o pr <;> simp [loopStep, h]

lemma loopStep_contexts (o : Int → PipelineResult) (st : LoopState) (pr : Int) :
    (loopStep o st pr).contexts = st.contexts ++ (contextOf o pr).toList := by
  cases h : o pr <;> simp [loopStep, contextOf, h]

lemma loopStep_reviewBound (o : Int → PipelineResult) (st : LoopState) (pr : Int) :
    (loopStep o st pr).reviewBound = true := by
  cases h : o pr <;> simp [loopStep, h]

lemma loopStep_warnings_len (o : Int → PipelineResult) (st : LoopState) (pr : Int) :
    (loopStep o st pr).warnings.length
      = st.warnings.length + (if (o pr).isOk then 0 else 1) := by
  cases h : o pr <;> simp [loopStep, PipelineResult.isOk, h]

lemma runFold_events (o : Int → PipelineResult) (prs : List Int) (st : LoopState) :
    (prs.foldl (loopStep o) st).events = st.events ++ prs.map Event.acquireSession := by
  induction prs generalizing st with
  | nil => simp
  | cons pr rest ih =>
    rw [List.foldl_cons, ih, loopStep_events]
    simp

lemma runFold_stack (o : Int → PipelineResult) (prs : List Int) (st : LoopState) :
    (prs.foldl (loopStep o) st).stack = prs.reverse ++ st.stack := by
  induction prs generalizing st with
  | nil => simp
  | cons pr rest ih =>
    rw [List.foldl_cons, ih, loopStep_stack]
    simp

lemma runFold_contexts (o : Int → PipelineResult) (prs : List Int) (st : LoopState) :
    (prs.foldl (loopStep o) st).contexts = st.contexts ++ prs.filterMap (contextOf o) := by
  induction prs generalizing st with
  | nil => simp
  | cons pr rest ih =>
    rw [List.foldl_cons, ih, loopStep_contexts]
    cases h : contextOf o pr <;> simp [List.filterMap_cons, h]

lemma runFold_reviewBound (o : Int → PipelineResult) (prs : List Int) (st : LoopState) :
    (prs.foldl (loopStep o) st).reviewBound = (st.reviewBound || !prs.isEmpty) := by
  induction prs generalizing st with
  | nil => simp
  | cons pr rest ih =>
    rw [List.foldl_cons, ih, loopStep_reviewBound]
    simp

lemma runFold_warnings_len (o : Int → PipelineResult) (prs : List Int) (st : LoopState) :
    (prs.foldl (loopStep o) st).warnings.length
      = st.warnings.length + (prs.filter (fun pr => !(o pr).isOk)).length := by
  induction prs generalizing st with
  | nil => simp
  | cons pr rest ih =>
    rw [List.foldl_cons, ih, loopStep_warnings_len]
    cases h : (o pr).isOk <;> simp [List.filter_cons, h] <;> omega

/-- C4: identifier parsing: an argument of the form A-B (two decimal digit
runs) expands in place to the half-open sequence A, A+1, ..., B-1 (the upper
bound is exclusive, matching Python range(A, B)); a bare integer string
yields itself; a pull-request URL yields its number; forms are tried in
source order (range, URL, bare integer) and the output order follows
first-matching expansion of the arguments in order. -/
theorem identifier_forms :
    (∀ A B : Nat, parse_pr_numbers [String.mk (natDigits A ++ '-' :: natDigits B)]
      = .ok (pyRange A B))
    ∧ parse_pr_numbers ["123"] = .ok [123]
    ∧ parse_pr_numbers ["https://github.com/NixOS/nixpkgs/pull/456"] = .ok [456]
    ∧ parse_pr_numbers ["10-13"] = .ok [10, 11, 12]
    ∧ parse_pr_numbers ["123", "10-13", "https://github.com/NixOS/nixpkgs/pull/456"]
      = .ok [123, 10, 11, 12, 456] :=
  ⟨parse_single_range, rfl, rfl, rfl, rfl⟩

/-- C7: an argument matching none of the three recognized forms terminates
the invocation with exit code 1 after a warning; however the warning renders
the URL match object (None on this path) instead of the offending argument,
whose text does not occur in the message. -/
theorem unrecognized_argument_warning :
    parse_pr_numbers ["foo"] = .error (1, "expected number or URL, got None")
    ∧ containsRun "foo".data "expected number or URL, got None".data = false :=
  ⟨rfl, rfl⟩

/-- C2: the CLI override layer is never applied: `update_from_args` ignores
the argument namespace entirely (any two namespaces yield the same result),
and because its body re-runs `update_from_dict` on an empty dictionary it
always raises (through the wip.staged defect) instead of layering CLI values
over file values. -/
theorem update_from_args_ignores_cli :
    (∀ (c : Config) (a1 a2 : Args), c.update_from_args a1 = c.update_from_args a2)
    ∧ (∀ (c : Config) (a : Args), ∃ e, c.update_from_args a = .error e) :=
  ⟨fun _ _ _ => rfl, fun c _ => update_from_dict_nil_err c⟩

/-- C3: the documented default for wip.staged is false (the dataclass
default), yet loading an empty override dictionary (absent wip table) does
not leave the default intact: `update_from_dict` assigns the branch string
"master" to staged and its own bool type check raises ValueError, so
configuration loading fails instead of succeeding with the defaults. -/
theorem wip_staged_default_breaks_loading :
    (∀ nom : Bool, (Config.default nom).wip_config.staged = .bool false)
    ∧ (∀ nom : Bool, (Config.default nom).update_from_dict []
        = .error (checkTypeErr "wip.staged" "bool" (.str "master"),
            { Config.default nom with wip_config := ⟨.str "master", .str "master"⟩ })) := by
  constructor
  · intro nom; rfl
  · intro nom; cases nom <;> rfl

/-- A dictionary with a valid allow entry followed by an ill-typed
build_args entry. -/
def badTypeDict : PyDict := [("allow", .list [.str "ifd"]), ("build_args", .int 42)]

/-- C6 counterexample: loading a dictionary whose build_args value is an int
raises, but the Config is not left unchanged from its pre-load state: the
allow field, validated earlier, has already been mutated to the new value
when the error is raised. -/
theorem partial_mutation_on_error :
    (Config.default false).update_from_dict badTypeDict
      = .error (checkTypeErr "build_args" "str" (.int 42),
          { Config.default false with allow := .list [.str "ifd"], build_args := .int 42 })
    ∧ PyVal.list [PyVal.str "ifd"] ≠ (Config.default false).allow :=
  ⟨rfl, by simp [Config.default]⟩

/-- A dictionary with a valid allow entry followed by an ill-typed no_shell
entry, exhibiting non-atomic mutation. -/
def mutationDict : PyDict := [("allow", .list [.str "aliases"]), ("no_shell", .int 0)]

/-- C6 amended: an input dictionary containing an invalid value of the
checked kinds (wrong field type, out-of-vocabulary enum value, non-positive
parallelism, invalid regex) — at any top-level field or inside the rev, wip
or pr sub-namespaces — makes configuration loading raise; equivalently, a
successful load implies every present value is valid for its field's check.
The error, however, is not atomic: fields processed before the offending one
keep their newly assigned values, exhibited on a concrete dictionary. -/
theorem invalid_value_fails_loading :
    (∀ (cfg c : Config) (d : PyDict), cfg.update_from_dict d = .ok c →
      (∀ v, pyLookup d "build_args" = some v → v.isStr = true)
      ∧ (∀ v, pyLookup d "no_shell" = some v → v.isBool = true)
      ∧ (∀ v, pyLookup d "allow" = some v → v.isList = true ∧ v.listAll allowMem = true)
      ∧ (∀ v, pyLookup d "num_parallel_evals" = some v → v.isIntLike = true ∧ pyPos v = true)
      ∧ (∀ v, pyLookup d "skipped_package_regexes" = some v →
          ∃ xs, v = .list xs ∧ ∀ x ∈ xs, ∃ p, regex_type x = .ok p)
      ∧ (∀ kvs v, pyLookup d "pr" = some (.dict kvs) →
          pyLookup kvs "eval" = some v → evalMem v = true)
      ∧ (∀ v, pyLookup d "remote" = some v → v.isStr = true)
      ∧ (∀ v, pyLookup d "run" = some v → v.isStr = true)
      ∧ (∀ v, pyLookup d "sandbox" = some v → v.isBool = true)
      ∧ (∀ v, pyLookup d "skipped_packages" = some v → v.isList = true)
      ∧ (∀ v, pyLookup d "systems" = some v →
          (v.isStr || v.isList) = true ∧ (v.isList && !(v.listAll PyVal.isStr)) = false)
      ∧ (∀ v, pyLookup d "build_graph" = some v → v.isStr = true ∧ buildGraphMem v = true)
      ∧ (∀ v, pyLookup d "print_result" = some v → v.isBool = true)
      ∧ (∀ v, pyLookup d "extra_nixpkgs_config" = some v → v.isStr = true)
      ∧ (∀ kvs v, pyLookup d "rev" = some (.dict kvs) →
          pyLookup kvs "branch" = some v → v.isStr = true)
      ∧ (∀ kvs, pyLookup d "wip" = some (.dict kvs) →
          (∀ v, pyLookup kvs "branch" = some v → v.isStr = true)
          ∧ (∀ v, pyLookup kvs "staged" = some v → v.isBool = true))
      ∧ (∀ kvs v, pyLookup d "pr" = some (.dict kvs) →
          pyLookup kvs "checkout" = some v → checkoutMem v = true)
      ∧ (∀ kvs v, pyLookup d "pr" = some (.dict kvs) →
          pyLookup kvs "post_result" = some v → v.isBool = true))
    ∧ (Config.default false).update_from_dict mutationDict
        = .error (checkTypeErr "no_shell" "bool" (.int 0),
            { Config.default false with allow := .list [.str "aliases"], no_shell := .int 0 }) := by
  constructor
  · intro cfg c d h
    have hBA : updBuildArgs ∈ updateSteps := by simp [updateSteps]
    have hNS : updNoShell ∈ updateSteps := by simp [updateSteps]
    have hAL : updAllow ∈ updateSteps := by simp [updateSteps]
    have hNP : updNumParallel ∈ updateSteps := by simp [updateSteps]
    have hRG : updRegexes ∈ updateSteps := by simp [updateSteps]
    have hPR : updPr ∈ updateSteps := by simp [updateSteps]
    have hRM : updRemote ∈ updateSteps := by simp [updateSteps]
    have hRU : updRun ∈ updateSteps := by simp [updateSteps]
    have hSB : updSandbox ∈ updateSteps := by simp [updateSteps]
    have hSP : updSkippedPackages ∈ updateSteps := by simp [updateSteps]
    have hSY : updSystems ∈ updateSteps := by simp [updateSteps]
    have hBG : updBuildGraph ∈ updateSteps := by simp [updateSteps]
    have hPT : updPrintResult ∈ updateSteps := by simp [updateSteps]
    have hEX : updExtraNixpkgsConfig ∈ updateSteps := by simp [updateSteps]
    have hRV : updRev ∈ updateSteps := by simp [updateSteps]
    have hWP : updWip ∈ updateSteps := by simp [updateSteps]
    refine ⟨?_, ?_, ?_, ?_, ?_, ?_, ?_, ?_, ?_, ?_, ?_, ?_, ?_, ?_, ?_, ?_, ?_, ?_⟩
    · obtain ⟨a, b, hb⟩ := runSteps_ok_sub hBA h; exact updBuildArgs_ok hb
    · obtain ⟨a, b, hb⟩ := runSteps_ok_sub hNS h; exact updNoShell_ok hb
    · obtain ⟨a, b, hb⟩ := runSteps_ok_sub hAL h; exact updAllow_ok hb
    · obtain ⟨a, b, hb⟩ := runSteps_ok_sub hNP h; exact updNumParallel_ok hb
    · obtain ⟨a, b, hb⟩ := runSteps_ok_sub hRG h; exact updRegexes_ok hb
    · obtain ⟨a, b, hb⟩ := runSteps_ok_sub hPR h; exact updPr_ok hb
    · obtain ⟨a, b, hb⟩ := runSteps_ok_sub hRM h; exact updRemote_ok hb
    · obtain ⟨a, b, hb⟩ := runSteps_ok_sub hRU h; exact updRun_ok hb
    · obtain ⟨a, b, hb⟩ := runSteps_ok_sub hSB h; exact updSandbox_ok hb
    · obtain ⟨a, b, hb⟩ := runSteps_ok_sub hSP h; exact updSkippedPackages_ok hb
    · obtain ⟨a, b, hb⟩ := runSteps_ok_sub hSY h; exact updSystems_ok hb
    · obtain ⟨a, b, hb⟩ := runSteps_ok_sub hBG h; exact updBuildGraph_ok hb
    · obtain ⟨a, b, hb⟩ := runSteps_ok_sub hPT h; exact updPrintResult_ok hb
    · obtain ⟨a, b, hb⟩ := runSteps_ok_sub hEX h; exact updExtraNixpkgsConfig_ok hb
    · obtain ⟨a, b, hb⟩ := runSteps_ok_sub hRV h; exact updRev_ok hb
    · obtain ⟨a, b, hb⟩ := runSteps_ok_sub hWP h; exact updWip_ok hb
    · obtain ⟨a, b, hb⟩ := runSteps_ok_sub hPR h; exact updPr_ok_checkout hb
    · obtain ⟨a, b, hb⟩ := runSteps_ok_sub hPR h; exact updPr_ok_postResult hb
  · rfl

/-- A dictionary on which loading succeeds (the wip.staged key is supplied
as a bool, working around the staged-default defect). -/
def okDict : PyDict := [("build_args", .str "x"), ("wip", .dict [("staged", .bool true)])]

/-- Witness instantiating the loading-success hypothesis of the amended C6
theorem on a concrete dictionary. -/
theorem invalid_value_fails_loading_witness :
    PyVal.isStr (PyVal.str "x") = true :=
  (invalid_value_fails_loading.1 (Config.default false)
    { Config.default false with
        build_args := .str "x",
        wip_config := ⟨.str "master", .bool true⟩ } okDict rfl).1 (PyVal.str "x") rfl

/-- A dictionary whose regex list contains an invalid pattern. -/
def badRegexDict : PyDict := [("skipped_package_regexes", .list [.str "("])]

/-- C8 counterexample: an invalid pattern fails the load with a message that
contains the offending pattern but does not name the field
skipped_package_regexes it was assigned to. -/
theorem regex_error_omits_field :
    (Config.default false).update_from_dict badRegexDict
      = .error (.argumentTypeError (sq "(" ++ " is not a valid regex: " ++ reErrMsg),
          Config.default false)
    ∧ containsRun "skipped_package_regexes".data
        (sq "(" ++ " is not a valid regex: " ++ reErrMsg).data = false :=
  ⟨rfl, rfl⟩

/-- C8 amended: every entry of the regex list is compiled eagerly at load
time (a successful load implies every entry compiles), and an invalid
pattern fails the whole load with an error naming the offending pattern;
the field name, however, is not part of the message. -/
theorem regex_compiled_eagerly :
    (∀ (cfg c : Config) (d : PyDict) (xs : List PyVal),
      cfg.update_from_dict d = .ok c →
      pyLookup d "skipped_package_regexes" = some (.list xs) →
      ∀ x ∈ xs, ∃ p, regex_type x = .ok p)
    ∧ (Config.default false).update_from_dict badRegexDict
        = .error (.argumentTypeError (sq "(" ++ " is not a valid regex: " ++ reErrMsg),
            Config.default false)
    ∧ containsRun "(".data (sq "(" ++ " is not a valid regex: " ++ reErrMsg).data = true := by
  refine ⟨?_, rfl, rfl⟩
  intro cfg c d xs h hx
  have hRG : updRegexes ∈ updateSteps := by simp [updateSteps]
  obtain ⟨a, b, hb⟩ := runSteps_ok_sub hRG h
  obtain ⟨ys, hys, hall⟩ := updRegexes_ok hb _ hx
  injection hys with h2
  subst h2
  exact hall

/-- A dictionary on which loading succeeds and whose regex list is
non-trivial. -/
def okRegexDict : PyDict := [("skipped_package_regexes", .list [.str "a.*b"]),
  ("wip", .dict [("staged", .bool false)])]

/-- Witness instantiating the eager-compilation part of the amended C8
theorem on a concrete dictionary. -/
theorem regex_compiled_eagerly_witness :
    ∃ p, regex_type (PyVal.str "a.*b") = .ok p :=
  regex_compiled_eagerly.1 (Config.default false)
    { Config.default false with
        skipped_package_regexes := .list [.pattern "a.*b"],
        wip_config := ⟨.str "master", .bool false⟩ }
    okRegexDict [PyVal.str "a.*b"] rfl rfl (PyVal.str "a.*b") (by simp)

/-- C5: partial-failure tolerance: every identifier is processed — the
recorded contexts are exactly the in-order successful pipelines (failed ones
are excluded and nothing else), every failed identifier produces exactly one
warning, and the overall success boolean is computed over the recorded
identifiers only. -/
theorem partial_failure_tolerance (p : RunParams) :
    (runState p).contexts = p.prs.filterMap (contextOf p.outcome)
    ∧ (runState p).warnings.length
        = (p.prs.filter (fun pr => !(p.outcome pr).isOk)).length
    ∧ allSucceeded p
        = (p.prs.filterMap (contextOf p.outcome)).all (fun c => (p.outcome c.1).success) := by
  have h1 : (runState p).contexts = p.prs.filterMap (contextOf p.outcome) := by
    simp [runState, runFold_contexts]
  refine ⟨h1, ?_, ?_⟩
  · simp [runState, runFold_warnings_len]
  · simp [allSucceeded, h1]

/-- C9: session lifecycle: on every run (and hence every exit path — the
event trace of the model does not depend on how the result branch
terminates, mirroring that `with` blocks release on normal return,
`sys.exit`, and assertion failure alike) the Build Environment is acquired
first, the sessions are acquired in identifier order, all sessions are
released in reverse-acquisition order when the enclosing scope ends, and the
Build Environment is released last. -/
theorem scoped_release_order (p : RunParams) :
    (prCommandCore p).2
      = Event.acquireEnv :: (p.prs.map Event.acquireSession
          ++ (p.prs.map Event.releaseSession).reverse ++ [Event.releaseEnv]) := by
  simp [prCommandCore, runState, runFold_events, runFold_stack, List.map_reverse]

/-- Pipeline outcomes for the C1 counterexample: identifier 1 records a
context whose review succeeds, every other identifier raises the domain
error during build. -/
def cOneOutcome : Int → PipelineResult :=
  fun pr => if pr = 1 then .ok [] true else .fail "checkout failed"

/-- C1 counterexample: with shell suppression set, a run in which identifier
2 failed to produce a recorded context (only identifier 1 is recorded)
terminates with exit code 0, not 1: the missing-context check is never
reached. -/
theorem no_shell_masks_missing_context :
    (prCommandCore ⟨[1, 2], true, cOneOutcome⟩).1 = .exited 0
    ∧ (runState ⟨[1, 2], true, cOneOutcome⟩).contexts.map (fun c => c.1) = [1] :=
  ⟨rfl, rfl⟩

/-- C1 amended: the exit-code policy as implemented: with shell suppression
the exit code is decided first and is 0 iff every recorded review succeeded,
ignoring identifiers that produced no context; without shell suppression a
run with at least one identifier missing a recorded context exits 1. -/
theorem exit_code_policy (p : RunParams) :
    (p.noShell = true → p.prs ≠ [] →
      (prCommandCore p).1 = .exited (if allSucceeded p then 0 else 1))
    ∧ (p.noShell = false → p.prs ≠ [] →
      (runState p).contexts.length ≠ p.prs.length →
      (prCommandCore p).1 = .exited 1) := by
  have hrb : p.prs ≠ [] → (runState p).reviewBound = true := by
    intro hne
    simp [runState, runFold_reviewBound, List.isEmpty_iff, hne]
  constructor
  · intro hns hne
    simp [prCommandCore, hrb hne, hns]
  · intro hns hne hlen
    simp [prCommandCore, hrb hne, hns, hlen]

/-- Witness for the amended C1 theorem: without shell suppression the same
partially-failed run exits 1. -/
theorem exit_code_policy_witness :
    (prCommandCore ⟨[1, 2], false, cOneOutcome⟩).1 = .exited 1 :=
  (exit_code_policy ⟨[1, 2], false, cOneOutcome⟩).2 rfl (by decide) (by decide)

/-- Pipeline outcomes in which every identifier raises the domain error. -/
def allFailOutcome : Int → PipelineResult := fun _ => .fail "checkout failed"

/-- C10 counterexample: a non-empty identifier list in which every pipeline
raises the domain error does not crash the post-loop review assertion: the
run reaches the documented missing-context exit path with code 1. -/
theorem all_failing_reaches_exit_path :
    (prCommandCore ⟨[7], false, allFailOutcome⟩).1 = .exited 1
    ∧ (prCommandCore ⟨[7], false, allFailOutcome⟩).1 ≠ .assertionError :=
  ⟨rfl, by decide⟩

lemma filterMap_contextOf_allFail (prs : List Int) :
    prs.filterMap (contextOf allFailOutcome) = [] := by
  induction prs with
  | nil => rfl
  | cons a rest ih => simp [List.filterMap_cons, contextOf, allFailOutcome, ih]

/-- C10 amended: the review assertion is reachable, but it fails exactly
when the expanded identifier list is empty — e.g. the single argument 5-5,
which the range parser expands to the empty sequence — not when every
pipeline of a non-empty list raises: there, review was bound by the last
iteration's construction, the assertion passes, and the run exits 0 under
shell suppression (vacuous success over zero recorded contexts) or 1
otherwise. -/
theorem review_assertion_reachability :
    (∀ (prs : List Int) (noShell : Bool),
      (prCommandCore ⟨prs, noShell, allFailOutcome⟩).1
        = if prs.isEmpty then RunResult.assertionError
          else RunResult.exited (if noShell then 0 else 1))
    ∧ parse_pr_numbers ["5-5"] = .ok [] := by
  refine ⟨?_, rfl⟩
  intro prs noShell
  cases prs with
  | nil => rfl
  | cons a rest =>
    have hrb : (runState ⟨a :: rest, noShell, allFailOutcome⟩).reviewBound = true := by
      simp only [runState, runFold_reviewBound]
      simp
    have hctx : (runState ⟨a :: rest, noShell, allFailOutcome⟩).contexts = [] := by
      simp only [runState, runFold_contexts, filterMap_contextOf_allFail]
      simp
    have hall : allSucceeded ⟨a :: rest, noShell, allFailOutcome⟩ = true := by
      simp [allSucceeded, hctx]
    cases noShell with
    | true => simp [prCommandCore, hrb, hall]
    | false => simp [prCommandCore, hrb, hctx]
